import Mathlib

/-!
Verification of the audio-file service (FastAPI + Yandex OAuth backend).

Shallow embedding of the repository's handlers and data model:
  - `models.py`  : `User`, `AudioFile` rows (SQLAlchemy) as Lean structures;
  - `oauth.py`   : `get_yandex_user_info` as a function on a provider profile;
  - `main.py`    : the request handlers as explicit state-passing functions
                   on a `DB` value (list of rows plus autoincrement counters);
  - `auth.py`    : this file is not present in the repository snapshot; the
                   token issuer/verifier is modelled from the spec (§4.1).

Database sessions are modelled by passing the `DB` value in and out of each
handler; an `Except HTTPError` value carries the `HTTPException`s the handlers
raise.  `DateTime` columns (`created_at`) are not modelled: no handler logic
reads them.
-/

namespace AudioService

/-- An `HTTPException`: status code and detail string. -/
structure HTTPError where
  status_code : Nat
  detail : String
deriving Repr, DecidableEq

/-- A `User` row (`models.py`).  `id` is the integer primary key assigned by
the database; `yandex_id` holds `str(user_info.id)`; `is_active` defaults to
true and `is_superuser` to false (column defaults). -/
structure User where
  id : Nat
  yandex_id : String
  email : String
  username : String
  is_active : Bool
  is_superuser : Bool
deriving Repr, DecidableEq

/-- An `AudioFile` row (`models.py`): original filename, storage path and the
owning user's id (foreign key). -/
structure AudioFile where
  id : Nat
  filename : String
  file_path : String
  owner_id : Nat
deriving Repr, DecidableEq

/-- The relational store: the two tables plus the autoincrement counters the
database uses to assign primary keys on insert. -/
structure DB where
  users : List User
  audio_files : List AudioFile
  nextUserId : Nat
  nextAudioId : Nat
deriving Repr, DecidableEq

/-- The provider profile returned by the OAuth bridge: external id (already
as the string `str(user_info.id)`), optional email, optional display name. -/
structure UserInfo where
  id : String
  email : Option String
  display_name : Option String
deriving Repr, DecidableEq

/-! ### Token issuer / verifier

`auth.py` (imported by `main.py` for `create_access_token` and the
authenticated-request guard) is not in the repository snapshot, so the token
scheme is modelled from the spec. -/

/-- Modelled from the spec: the black-box symmetric signing primitive over the
token payload (`auth.py` is missing from the snapshot; spec §4.1 treats the
signing function as out of scope).  Any fixed deterministic keyed function
represents it; verification recomputes it with the same secret. -/
def signPayload (secret sub : String) (exp : Nat) : Nat :=
  secret.foldl (fun a c => a * 31 + c.toNat) 7
    + sub.foldl (fun a c => a * 31 + c.toNat) 0
    + exp

/-- A bearer token: subject, absolute expiry timestamp, signature. -/
structure Token where
  sub : String
  exp : Nat
  sig : Nat
deriving Repr, DecidableEq

/-- Modelled from the spec: `issue(subject, ttl)` — "produces a signed
credential encoding the subject identifier and an absolute expiry timestamp,
using a symmetric secret"; pure function of inputs plus current time (`now`).
(`auth.py`'s `create_access_token` is missing from the snapshot.) -/
def issue (secret : String) (now : Nat) (sub : String) (ttl : Nat) : Token :=
  { sub := sub, exp := now + ttl, sig := signPayload secret sub (now + ttl) }

/-- Modelled from the spec: `verify(token)` — "fails with `InvalidToken` if
the signature does not match, the structure is malformed, or the expiry has
passed. On success returns the embedded subject identifier."  Expiry is
strict (spec §4.1 edge case).  (`auth.py` is missing from the snapshot.) -/
def verify (secret : String) (now : Nat) (t : Token) : Except String String :=
  if t.sig ≠ signPayload secret t.sub t.exp then .error "InvalidToken"
  else if t.exp ≤ now then .error "InvalidToken"
  else .ok t.sub

/-! ### OAuth bridge (`oauth.py`) -/

/-- Model of `get_yandex_user_info` (`oauth.py`): after the provider calls succeed, if
the profile has no email it raises `HTTPException(400, "Email not received
from Yandex")`; the surrounding broad `except` rewraps that exception as
`HTTPException(400, str(e))`, and Starlette's `HTTPException.__str__` is
`"{status_code}: {detail}"`.  The provider network calls themselves are out
of scope (spec §1); `info` is the profile the provider returned. -/
def get_yandex_user_info (info : UserInfo) : Except HTTPError UserInfo :=
  match info.email with
  | none => .error ⟨400, "400: Email not received from Yandex"⟩
  | some _ => .ok info

/-! ### Handlers (`main.py`) -/

/-- Model of `select(User).where(User.yandex_id == yid)` followed by
`scalar_one_or_none()`: the first (and, by the uniqueness invariant on
`yandex_id`, only) matching row, if any. -/
def findUserByYandexId (users : List User) (yid : String) : Option User :=
  users.find? (fun u => u.yandex_id == yid)

/-- Handler `yandex_auth_callback` (`main.py`): the `get_yandex_user_info` dependency
resolves first (its `HTTPException` propagates before the handler body runs);
then the handler looks the user up by external id, creates one if absent
(`is_superuser=True` on every creation), and mints a token whose subject is
`str(user.id)` with the configured ttl. -/
def yandex_auth_callback (secret : String) (now ttl : Nat) (db : DB)
    (info : UserInfo) : DB × Except HTTPError Token :=
  match get_yandex_user_info info with
  | .error e => (db, .error e)
  | .ok info =>
    match findUserByYandexId db.users info.id with
    | some user =>
        (db, .ok (issue secret now (toString user.id) ttl))
    | none =>
        let user : User :=
          { id := db.nextUserId
            yandex_id := info.id
            email := info.email.getD ""
            username := info.display_name.getD ""
            is_active := true
            is_superuser := true }
        let db' := { db with users := db.users ++ [user],
                             nextUserId := db.nextUserId + 1 }
        (db', .ok (issue secret now (toString user.id) ttl))

/-- Handler `delete_user` (`main.py`): first the superuser check (403), then the
lookup by id (404), then the hard delete. -/
def delete_user (db : DB) (current_user : User) (user_id : Nat) :
    DB × Except HTTPError String :=
  if !current_user.is_superuser then
    (db, .error ⟨403, "Not enough permissions"⟩)
  else
    match db.users.find? (fun u => u.id == user_id) with
    | none => (db, .error ⟨404, "User not found"⟩)
    | some _ =>
        ({ db with users := db.users.filter (fun v => v.id != user_id) },
         .ok "User deleted successfully")

/-! ### Python string helpers used by the upload handler -/

/-- Python `str.lower()` (ASCII model, sufficient for the case analysis the
handler performs on filename extensions). -/
def pyLower (s : String) : String :=
  String.mk (s.toList.map Char.toLower)

/-- Python `str.endswith(suffix)`. -/
def pyEndsWith (s suffix : String) : Bool :=
  List.isSuffixOf suffix.toList s.toList

/-- The extension allow-list check in `upload_audio` (`main.py`):
`file.filename.lower().endswith(('.mp3', '.wav', '.ogg'))`. -/
def allowedExt (name : String) : Bool :=
  pyEndsWith (pyLower name) ".mp3"
    || pyEndsWith (pyLower name) ".wav"
    || pyEndsWith (pyLower name) ".ogg"

/-- Model of `os.path.splitext(p)[1]` for a bare filename: the substring from the last
dot onward, provided some character of the base name strictly before that dot
is not itself a dot (leading dots never start an extension); otherwise the
empty string. -/
def splitextExt (name : String) : String :=
  let cs := name.toList
  match ((List.range cs.length).filter (fun i => cs.getD i ' ' = '.')).getLast? with
  | none => ""
  | some si =>
    if (List.range si).any (fun i => cs.getD i ' ' ≠ '.') then
      String.mk (cs.drop si)
    else ""

/-- The `settings.AUDIO_FILES_DIR` default value (`config.py`). -/
def audioFilesDir : String := "audio_files"

/-- The outcome of the file-system write in the upload handler: either the
`open`/`write` succeeds or it raises with some message.  The store itself is
out of scope (spec §1), so the outcome is a parameter of the handler. -/
inductive WriteOutcome where
  | success
  | failure (msg : String)
deriving Repr, DecidableEq

/-- The `if not filename: filename = file.filename` fallback in `upload_audio`:
an absent (`None`) or empty query parameter falls back to the original
filename (both are falsy in Python). -/
def uploadFilename (filename? : Option String) (fileFilename : String) : String :=
  match filename? with
  | none => fileFilename
  | some f => if f = "" then fileFilename else f

/-- Handler `upload_audio` (`main.py`): extension allow-list check (400), fallback of
the optional `filename` query parameter to the original filename when absent
or empty (Python `if not filename`), derivation of the storage path, the
file-system write (500 and no DB record on failure), then creation of the
`AudioFile` row owned by the caller. -/
def upload_audio (db : DB) (current_user : User) (fileFilename : String)
    (filename? : Option String) (write : WriteOutcome) :
    DB × Except HTTPError AudioFile :=
  if !allowedExt fileFilename then
    (db, .error ⟨400, "Only .mp3, .wav, and .ogg files are allowed"⟩)
  else
    let filename := uploadFilename filename? fileFilename
    let file_extension := splitextExt fileFilename
    let unique_filename := filename ++ file_extension
    let file_path := audioFilesDir ++ "/" ++ unique_filename
    match write with
    | .failure msg =>
        (db, .error ⟨500, "Failed to save file: " ++ msg⟩)
    | .success =>
        let audio_file : AudioFile :=
          { id := db.nextAudioId
            filename := filename
            file_path := file_path
            owner_id := current_user.id }
        ({ db with audio_files := db.audio_files ++ [audio_file],
                   nextAudioId := db.nextAudioId + 1 },
         .ok audio_file)

/-- Handler `get_audio_files` (`main.py`):
`select(AudioFile).where(AudioFile.owner_id == current_user.id)`, all rows. -/
def get_audio_files (db : DB) (current_user : User) : List AudioFile :=
  db.audio_files.filter (fun f => f.owner_id == current_user.id)

/-! ### Concrete fixtures used by counterexamples and witnesses -/

/-- A user already present in the store (created by an earlier callback, hence
superuser per the code's creation path). -/
def userAlice : User :=
  { id := 1, yandex_id := "111", email := "alice@example.com",
    username := "Alice", is_active := true, is_superuser := true }

/-- A second user, not a superuser. -/
def userBob : User :=
  { id := 2, yandex_id := "222", email := "bob@example.com",
    username := "Bob", is_active := true, is_superuser := false }

/-- A store holding exactly one user (`userAlice`). -/
def dbOne : DB :=
  { users := [userAlice], audio_files := [], nextUserId := 2, nextAudioId := 1 }

/-- A provider profile with a fresh external id, an email and a display name. -/
def infoBob : UserInfo :=
  { id := "222", email := some "bob@example.com", display_name := some "Bob" }

/-- A provider profile matching `userAlice`'s external id. -/
def infoAlice : UserInfo :=
  { id := "111", email := some "alice@example.com", display_name := some "Alice" }

/-- A provider profile with no email. -/
def infoNoEmail : UserInfo :=
  { id := "333", email := none, display_name := some "Carol" }

/-- A provider profile with an email but no display name. -/
def infoNoName : UserInfo :=
  { id := "444", email := some "dave@example.com", display_name := none }

/-- One audio file owned by `userAlice`, one owned by `userBob`. -/
def fileOfAlice : AudioFile :=
  { id := 1, filename := "a.mp3", file_path := "audio_files/a.mp3.mp3", owner_id := 1 }

/-- An audio file owned by `userBob`. -/
def fileOfBob : AudioFile :=
  { id := 2, filename := "b.wav", file_path := "audio_files/b.wav.wav", owner_id := 2 }

/-- A store with both users and one file each. -/
def dbTwo : DB :=
  { users := [userAlice, userBob], audio_files := [fileOfAlice, fileOfBob],
    nextUserId := 3, nextAudioId := 3 }

/-! ### Helper lemmas -/

/-- Lowercasing preserves an already-lowercase suffix: if `name` ends with a
suffix that is fixed by `Char.toLower`, then so does `pyLower name`. -/
theorem pyEndsWith_pyLower_of_pyEndsWith (name suf : String)
    (hsuf : suf.toList.map Char.toLower = suf.toList)
    (h : pyEndsWith name suf = true) :
    pyEndsWith (pyLower name) suf = true := by
  unfold pyEndsWith at h ⊢
  rw [List.isSuffixOf_iff_suffix] at h ⊢
  have hm := h.map Char.toLower
  rw [hsuf] at hm
  simpa [pyLower] using hm

/-! ### Claim theorems -/

/-- C3: for every subject and positive time-to-live, verifying a token
immediately after issuing it (same clock reading, so before the expiry has
passed) succeeds and returns exactly that subject. -/
theorem verify_issue_roundtrip (secret sub : String) (now ttl : Nat)
    (h : 0 < ttl) :
    verify secret now (issue secret now sub ttl) = .ok sub := by
  simp [verify, issue]
  omega

/-- Witness for C3 at a concrete subject, clock and ttl. -/
theorem verify_issue_roundtrip_witness :
    verify "change-me" 100 (issue "change-me" 100 "1" 30) = .ok "1" :=
  verify_issue_roundtrip "change-me" "1" 100 30 (by decide)

/-- C7: when the provider profile lacks an email, the callback fails with the
HTTP 400 error and the store is returned unchanged (no User row created). -/
theorem callback_missing_email (secret : String) (now ttl : Nat) (db : DB)
    (info : UserInfo) (he : info.email = none) :
    yandex_auth_callback secret now ttl db info
      = (db, .error ⟨400, "400: Email not received from Yandex"⟩) := by
  simp [yandex_auth_callback, get_yandex_user_info, he]

/-- Witness for C7: the no-email profile against the one-user store. -/
theorem callback_missing_email_witness :
    yandex_auth_callback "change-me" 0 30 dbOne infoNoEmail
      = (dbOne, .error ⟨400, "400: Email not received from Yandex"⟩) :=
  callback_missing_email "change-me" 0 30 dbOne infoNoEmail rfl

/-- C2: when a User row already matches the profile's external id, the
callback leaves the store unchanged and returns a token whose subject is that
existing user's internal id. -/
theorem callback_existing_user_reused (secret : String) (now ttl : Nat)
    (db : DB) (info : UserInfo) (e : String) (u : User)
    (he : info.email = some e)
    (hfind : findUserByYandexId db.users info.id = some u) :
    yandex_auth_callback secret now ttl db info
        = (db, .ok (issue secret now (toString u.id) ttl))
      ∧ (issue secret now (toString u.id) ttl).sub = toString u.id := by
  constructor
  · simp [yandex_auth_callback, get_yandex_user_info, he, hfind]
  · rfl

/-- Witness for C2: Alice's profile replayed against the store that already
holds her row. -/
theorem callback_existing_user_reused_witness :
    yandex_auth_callback "change-me" 0 30 dbOne infoAlice
        = (dbOne, .ok (issue "change-me" 0 "1" 30))
      ∧ (issue "change-me" 0 "1" 30).sub = "1" :=
  callback_existing_user_reused "change-me" 0 30 dbOne infoAlice
    "alice@example.com" userAlice rfl rfl

/-- C1 counterexample: with one User already in the store, a callback for a
fresh external id creates a second User whose superuser flag is true, not
false as the claim states for every later creation. -/
theorem callback_second_creation_superuser_cex :
    dbOne.users.length = 1
      ∧ findUserByYandexId dbOne.users infoBob.id = none
      ∧ (yandex_auth_callback "change-me" 0 30 dbOne infoBob).1.users.map
          User.is_superuser = [true, true] := by
  refine ⟨rfl, ?_, ?_⟩ <;> decide

/-- C1 amended: whenever no User matches the profile's external id, the
callback creates a User with email and display name copied from the profile
and the superuser flag set true on every such creation, first or not. -/
theorem callback_creation_superuser_true (secret : String) (now ttl : Nat)
    (db : DB) (info : UserInfo) (e : String)
    (he : info.email = some e)
    (hnone : findUserByYandexId db.users info.id = none) :
    (yandex_auth_callback secret now ttl db info).1.users
      = db.users ++
          [{ id := db.nextUserId, yandex_id := info.id, email := e,
             username := info.display_name.getD "", is_active := true,
             is_superuser := true }] := by
  simp [yandex_auth_callback, get_yandex_user_info, he, hnone]

/-- Witness for the amended C1: Bob's fresh profile against the one-user
store; the created row is a superuser even though Alice already exists. -/
theorem callback_creation_superuser_true_witness :
    (yandex_auth_callback "change-me" 0 30 dbOne infoBob).1.users
      = dbOne.users ++
          [{ id := 2, yandex_id := "222", email := "bob@example.com",
             username := "Bob", is_active := true, is_superuser := true }] :=
  callback_creation_superuser_true "change-me" 0 30 dbOne infoBob
    "bob@example.com" rfl rfl

/-- C6: the superuser check precedes the lookup — a non-superuser caller gets
403 with the store untouched for every store and target id (so the outcome
never depends on whether the target exists), and a superuser caller with a
non-existent target id gets 404 with the store untouched. -/
theorem delete_user_auth_precedes_lookup (db : DB) (cu : User) (uid : Nat) :
    (cu.is_superuser = false →
      delete_user db cu uid = (db, .error ⟨403, "Not enough permissions"⟩))
    ∧ (cu.is_superuser = true →
      db.users.find? (fun u => u.id == uid) = none →
      delete_user db cu uid = (db, .error ⟨404, "User not found"⟩)) := by
  constructor
  · intro h
    simp [delete_user, h]
  · intro h hn
    simp [delete_user, h, hn]

/-- Witness for C6: Bob (not a superuser) is refused 403 even though user 1
exists, and Alice (superuser) gets 404 for the absent id 99. -/
theorem delete_user_auth_precedes_lookup_witness :
    delete_user dbTwo userBob 1 = (dbTwo, .error ⟨403, "Not enough permissions"⟩)
    ∧ delete_user dbTwo userAlice 99
        = (dbTwo, .error ⟨404, "User not found"⟩) :=
  ⟨(delete_user_auth_precedes_lookup dbTwo userBob 1).1 rfl,
   (delete_user_auth_precedes_lookup dbTwo userAlice 99).2 rfl (by decide)⟩

/-- C4: when the storage write fails on an upload that passed the extension
check, the handler fails with the 500 error and the store is returned
unchanged — the write precedes record creation, so no AudioFile row exists. -/
theorem upload_write_failure_no_record (db : DB) (cu : User)
    (fileFilename : String) (filename? : Option String) (msg : String)
    (hext : allowedExt fileFilename = true) :
    upload_audio db cu fileFilename filename? (.failure msg)
      = (db, .error ⟨500, "Failed to save file: " ++ msg⟩) := by
  simp [upload_audio, hext]

/-- Witness for C4: an mp3 upload whose write raises "disk full". -/
theorem upload_write_failure_no_record_witness :
    upload_audio dbTwo userAlice "song.mp3" none (.failure "disk full")
      = (dbTwo, .error ⟨500, "Failed to save file: disk full"⟩) :=
  upload_write_failure_no_record dbTwo userAlice "song.mp3" none "disk full"
    (by decide)

/-- C5: the listing contains exactly the rows whose owner id is the caller's
internal id, and for any other user it contains none of that user's rows. -/
theorem get_audio_files_owner_only (db : DB) (u v : User) (huv : u.id ≠ v.id) :
    (∀ f, f ∈ get_audio_files db u ↔ f ∈ db.audio_files ∧ f.owner_id = u.id)
    ∧ (∀ f, f.owner_id = v.id → f ∉ get_audio_files db u) := by
  have hmem : ∀ f, f ∈ get_audio_files db u ↔
      f ∈ db.audio_files ∧ f.owner_id = u.id := by
    intro f
    simp [get_audio_files, List.mem_filter]
  refine ⟨hmem, fun f hf hin => ?_⟩
  exact huv (((hmem f).mp hin).2.symm.trans hf)

/-- Witness for C5: in the two-user store, Alice's listing holds her file and
not Bob's. -/
theorem get_audio_files_owner_only_witness :
    (fileOfAlice ∈ get_audio_files dbTwo userAlice
        ↔ fileOfAlice ∈ dbTwo.audio_files ∧ fileOfAlice.owner_id = userAlice.id)
    ∧ fileOfBob ∉ get_audio_files dbTwo userAlice :=
  ⟨(get_audio_files_owner_only dbTwo userAlice userBob (by decide)).1 fileOfAlice,
   (get_audio_files_owner_only dbTwo userAlice userBob (by decide)).2 fileOfBob rfl⟩

/-- C8: a filename failing the allow-list is rejected with 400 regardless of
write outcome and leaves the store unchanged; a filename ending in ".mp3"
whose write succeeds yields exactly one new AudioFile row, owned by the
caller. -/
theorem upload_allowlist (db : DB) (cu : User) (fileFilename : String)
    (filename? : Option String) (w : WriteOutcome) :
    (allowedExt fileFilename = false →
      upload_audio db cu fileFilename filename? w
        = (db, .error ⟨400, "Only .mp3, .wav, and .ogg files are allowed"⟩))
    ∧ (pyEndsWith fileFilename ".mp3" = true →
      ∃ af : AudioFile,
        upload_audio db cu fileFilename filename? .success
            = ({ db with audio_files := db.audio_files ++ [af],
                         nextAudioId := db.nextAudioId + 1 }, .ok af)
          ∧ af.owner_id = cu.id) := by
  constructor
  · intro h
    simp [upload_audio, h]
  · intro h
    have hlow : pyEndsWith (pyLower fileFilename) ".mp3" = true :=
      pyEndsWith_pyLower_of_pyEndsWith fileFilename ".mp3" (by decide) h
    have hext : allowedExt fileFilename = true := by
      simp [allowedExt, hlow]
    refine ⟨{ id := db.nextAudioId,
              filename := uploadFilename filename? fileFilename,
              file_path := audioFilesDir ++ "/" ++
                (uploadFilename filename? fileFilename ++ splitextExt fileFilename),
              owner_id := cu.id }, ?_, rfl⟩
    simp [upload_audio, hext]

/-- Witness for C8: "song.txt" is rejected with 400, and a successful
"song.mp3" upload by Alice appends one row owned by her. -/
theorem upload_allowlist_witness :
    upload_audio dbTwo userAlice "song.txt" none .success
      = (dbTwo, .error ⟨400, "Only .mp3, .wav, and .ogg files are allowed"⟩)
    ∧ ∃ af : AudioFile,
        upload_audio dbTwo userAlice "song.mp3" none .success
            = ({ dbTwo with audio_files := dbTwo.audio_files ++ [af],
                            nextAudioId := dbTwo.nextAudioId + 1 }, .ok af)
          ∧ af.owner_id = userAlice.id :=
  ⟨(upload_allowlist dbTwo userAlice "song.txt" none .success).1 (by decide),
   (upload_allowlist dbTwo userAlice "song.mp3" none .success).2 (by decide)⟩

/-- C9: the allow-list check is case-insensitive — whenever the lowercased
filename ends in ".mp3", ".wav" or ".ogg", the handler never returns the
unsupported-file-type 400 error. -/
theorem upload_ext_case_insensitive (db : DB) (cu : User)
    (fileFilename : String) (filename? : Option String) (w : WriteOutcome)
    (h : pyEndsWith (pyLower fileFilename) ".mp3" = true
      ∨ pyEndsWith (pyLower fileFilename) ".wav" = true
      ∨ pyEndsWith (pyLower fileFilename) ".ogg" = true) :
    (upload_audio db cu fileFilename filename? w).2
      ≠ .error ⟨400, "Only .mp3, .wav, and .ogg files are allowed"⟩ := by
  have hext : allowedExt fileFilename = true := by
    rcases h with h | h | h <;> simp [allowedExt, h]
  cases w <;> simp [upload_audio, hext]

/-- Witness for C9: the upper-case filename "SONG.MP3" passes the check. -/
theorem upload_ext_case_insensitive_witness :
    pyEndsWith (pyLower "SONG.MP3") ".mp3" = true
    ∧ (upload_audio dbTwo userAlice "SONG.MP3" none .success).2
        ≠ .error ⟨400, "Only .mp3, .wav, and .ogg files are allowed"⟩ :=
  ⟨by decide,
   upload_ext_case_insensitive dbTwo userAlice "SONG.MP3" none .success
     (Or.inl (by decide))⟩

/-- C10: a callback creating a User from a profile with an email but no
display name still succeeds, and the created row's username is the empty
string. -/
theorem callback_missing_display_name (secret : String) (now ttl : Nat)
    (db : DB) (info : UserInfo) (e : String)
    (he : info.email = some e) (hd : info.display_name = none)
    (hnone : findUserByYandexId db.users info.id = none) :
    ∃ tok : Token,
      yandex_auth_callback secret now ttl db info
        = ({ db with
               users := db.users ++
                 [{ id := db.nextUserId, yandex_id := info.id, email := e,
                    username := "", is_active := true, is_superuser := true }],
               nextUserId := db.nextUserId + 1 }, .ok tok) := by
  refine ⟨issue secret now (toString db.nextUserId) ttl, ?_⟩
  simp [yandex_auth_callback, get_yandex_user_info, he, hd, hnone]

/-- Witness for C10: the display-name-less profile against the one-user
store; the row is created with an empty username. -/
theorem callback_missing_display_name_witness :
    ∃ tok : Token,
      yandex_auth_callback "change-me" 0 30 dbOne infoNoName
        = ({ dbOne with
               users := dbOne.users ++
                 [{ id := 2, yandex_id := "444", email := "dave@example.com",
                    username := "", is_active := true, is_superuser := true }],
               nextUserId := 3 }, .ok tok) :=
  callback_missing_display_name "change-me" 0 30 dbOne infoNoName
    "dave@example.com" rfl rfl rfl

end AudioService
